import Mathlib

/-!
Shallow embedding of the BookingFlow server core (tRPC routers, persistence
helpers, Stripe webhook handler, Cal.com availability service) and proofs of
the specification claims about it.

Conventions of the embedding:
* Machine time instants (JS `Date`) are epoch milliseconds as `Int`.
* The bookings table is a `List Booking`; DB reads are `List.find?` (matching
  the `LIMIT 1` queries) and DB writes map over the list (matching the
  `WHERE id = ?` updates).  `updatedAt` bookkeeping is not modelled.
* Nullable / falsy string columns (`stripeSessionId`, `stripePaymentIntentId`)
  are `String` with `""` standing for SQL NULL / JS empty string, both of
  which are falsy in the source's truthiness tests.
* External calls (Stripe checkout creation, Stripe signature verification,
  the Cal.com HTTP fetch) are passed in as explicit outcome parameters, so an
  operation is a pure function from (store, inputs, external outcomes) to
  (store, observable side-effect attempts, response).
-/

/-- Status column of the bookings table (drizzle schema: pending, confirmed,
cancelled). -/
inductive BookingStatus where
  | pending : BookingStatus
  | confirmed : BookingStatus
  | cancelled : BookingStatus
deriving DecidableEq, Repr

/-- Row of the bookings table, from `src/drizzle/schema.ts` /
`src/server/db.ts`. -/
structure Booking where
  id : Nat
  practitionerId : Nat
  clientName : String
  clientEmail : String
  clientPhone : String
  bookingTime : Int
  status : BookingStatus
  stripeSessionId : String
  stripePaymentIntentId : String
  amount : Int
deriving DecidableEq, Repr

/-- Row of the practitioners table. -/
structure Practitioner where
  id : Nat
  name : String
  email : String
  description : String
  hourlyRate : Int
deriving DecidableEq, Repr

/-- `getPractitioner` of `src/server/db.ts`: lookup of a practitioner by id
(the DB query and its mock fallback are both keyed lookups; the available
practitioner rows are the explicit list parameter). -/
def getPractitioner (ps : List Practitioner) (pid : Nat) : Option Practitioner :=
  ps.find? (fun p => p.id == pid)

/-- `getBooking` of `src/server/db.ts`: select by primary key, limit 1. -/
def getBooking (store : List Booking) (bid : Nat) : Option Booking :=
  store.find? (fun b => b.id == bid)

/-- `getBookingByStripeSessionId` of `src/server/db.ts`: select by the
stripeSessionId column, limit 1. -/
def getBookingByStripeSessionId (store : List Booking) (sid : String) : Option Booking :=
  store.find? (fun b => b.stripeSessionId == sid)

/-- `checkBookingConflict` of `src/server/db.ts` (lines 243-262): select the
first booking whose practitionerId and bookingTime both match.  Note the
source query has no condition on the status column. -/
def checkBookingConflict (store : List Booking) (pid : Nat) (t : Int) : Option Booking :=
  store.find? (fun b => b.practitionerId == pid && b.bookingTime == t)

/-- `updateBookingStatus` of `src/server/db.ts`: set the status column on the
row with the given id. -/
def updateBookingStatus (store : List Booking) (bid : Nat) (st : BookingStatus) : List Booking :=
  store.map (fun b => if b.id == bid then { b with status := st } else b)

/-- `updateBookingWithStripeData` of `src/server/db.ts`: set the
stripeSessionId and stripePaymentIntentId columns on the row with the given
id. -/
def updateBookingWithStripeData (store : List Booking) (bid : Nat)
    (sid piId : String) : List Booking :=
  store.map (fun b =>
    if b.id == bid then { b with stripeSessionId := sid, stripePaymentIntentId := piId } else b)

/-- Checkout session as returned by `createCheckoutSession` in the Stripe
service (`CheckoutSession` interface). -/
structure CheckoutSession where
  id : String
  url : String
deriving DecidableEq, Repr

/-- Input of the `bookings.createBooking` tRPC mutation. -/
structure CreateBookingInput where
  practitionerId : Nat
  clientName : String
  clientEmail : String
  clientPhone : String
  bookingTime : Int
deriving DecidableEq, Repr

/-- Result object of the `bookings.createBooking` tRPC mutation. -/
structure CreateBookingResult where
  bookingId : Nat
  checkoutUrl : String
  amount : Int
deriving DecidableEq, Repr

/-- Result object of the confirm / cancel tRPC mutations
(`\x7bbookingId, status\x7d`). -/
structure StatusResult where
  bookingId : Nat
  status : String
deriving DecidableEq, Repr

/-- Outcome of a `createBooking` mutation run: the bookings table afterwards
(DB writes persist even when the mutation throws) and the thrown-or-returned
result. -/
structure CreateOutcome where
  store : List Booking
  result : Except String CreateBookingResult
deriving Repr

/-- Error message thrown by `createBooking` when the conflict check finds a
booking. -/
def slotTakenMsg : String :=
  "This time slot is already booked. Please select another time."

/-- `bookings.createBooking` of `src/server/routers.ts` (lines 104-173):
look up the practitioner, run the conflict check, insert a pending booking
row (with no Stripe references), then create a Stripe checkout session —
an external call whose outcome is the `checkout` parameter — and on success
attach its id (payment intent recorded as `""`).  A checkout failure
propagates to the caller while the inserted row stays in the table.
`newId` is the DB-generated id of the inserted row. -/
def createBookingOp (ps : List Practitioner) (store : List Booking)
    (inp : CreateBookingInput) (checkout : Except String CheckoutSession)
    (newId : Nat) : CreateOutcome :=
  match getPractitioner ps inp.practitionerId with
  | none => ⟨store, .error "Practitioner not found"⟩
  | some p =>
    match checkBookingConflict store inp.practitionerId inp.bookingTime with
    | some _ => ⟨store, .error slotTakenMsg⟩
    | none =>
      let booking : Booking :=
        { id := newId, practitionerId := inp.practitionerId,
          clientName := inp.clientName, clientEmail := inp.clientEmail,
          clientPhone := inp.clientPhone, bookingTime := inp.bookingTime,
          status := .pending, stripeSessionId := "", stripePaymentIntentId := "",
          amount := p.hourlyRate }
      let store1 := store ++ [booking]
      match checkout with
      | .error e => ⟨store1, .error e⟩
      | .ok cs =>
        ⟨updateBookingWithStripeData store1 newId cs.id "",
         .ok { bookingId := newId, checkoutUrl := cs.url, amount := p.hourlyRate }⟩

/-- Parameters the confirm path passes to `createCalComBooking`; recording
them makes each calendar-event creation attempt an observable side effect. -/
structure CalAttempt where
  practitionerId : Nat
  clientName : String
  clientEmail : String
  clientPhone : String
  startTime : Int
  endTime : Int
  title : String
deriving DecidableEq, Repr

/-- Outcome of a `confirmBooking` mutation run: table afterwards, the list of
calendar-event creation attempts made, and the response. -/
structure ConfirmOutcome where
  store : List Booking
  attempts : List CalAttempt
  result : Except String StatusResult
deriving Repr

/-- One hour in epoch milliseconds. -/
def msPerHour : Int := 3600000

/-- `bookings.confirmBooking` of `src/server/routers.ts` (lines 179-230):
look up the booking by its Stripe checkout session id (the only input — no
signature and no payment verification happens here), unconditionally set its
status to confirmed, then attempt a Cal.com event creation whenever the
practitioner is found (the attempt's success or failure never changes the
response), and return `\x7bbookingId, status: "confirmed"\x7d`. -/
def confirmBookingOp (ps : List Practitioner) (store : List Booking)
    (stripeSessionId : String) : ConfirmOutcome :=
  match getBookingByStripeSessionId store stripeSessionId with
  | none => ⟨store, [], .error "Booking not found"⟩
  | some booking =>
    let store1 := updateBookingStatus store booking.id .confirmed
    let attempts :=
      match getPractitioner ps booking.practitionerId with
      | some p =>
        [{ practitionerId := booking.practitionerId,
           clientName := booking.clientName, clientEmail := booking.clientEmail,
           clientPhone := booking.clientPhone, startTime := booking.bookingTime,
           endTime := booking.bookingTime + msPerHour,
           title := "Consultation with " ++ p.name }]
      | none => []
    ⟨store1, attempts, .ok { bookingId := booking.id, status := "confirmed" }⟩

/-- Outcome of a `cancelBooking` mutation run. -/
structure CancelOutcome where
  store : List Booking
  result : Except String StatusResult
deriving Repr

/-- `bookings.cancelBooking` of `src/server/routers.ts` (lines 261-289):
look up the booking by id and unconditionally set its status to cancelled
(the source has no check of the current status). -/
def cancelBookingOp (store : List Booking) (bookingId : Nat) : CancelOutcome :=
  match getBooking store bookingId with
  | none => ⟨store, .error "Booking not found"⟩
  | some booking =>
    ⟨updateBookingStatus store booking.id .cancelled,
     .ok { bookingId := booking.id, status := "cancelled" }⟩

/-- Webhook event as the handler sees it after Stripe signature verification:
the event type, the checkout session object's payment status and id, its
`payment_intent` (the source reads `session.payment_intent || ""`, so `""`
stands for absent), and the parsed `metadata.bookingId` when present. -/
structure StripeEvent where
  evType : String
  paymentStatus : String
  sessionId : String
  paymentIntent : String
  metadataBookingId : Option Nat
deriving DecidableEq, Repr

/-- `processWebhookEvent` of the Stripe service (`src/unnamed/part_009`,
lines 133-149): only a `checkout.session.completed` event whose session is
paid and carries a bookingId in its metadata yields a confirmation tuple;
every other event yields none. -/
def processWebhookEvent (event : StripeEvent) : Option (Nat × String) :=
  if event.evType == "checkout.session.completed" then
    match event.metadataBookingId with
    | some bid => if event.paymentStatus == "paid" then some (bid, event.sessionId) else none
    | none => none
  else
    none

/-- HTTP response of the webhook endpoint: the 200 `\x7breceived: true\x7d`
acknowledgment, or an error response with its status code and message. -/
inductive WebhookResponse where
  | received : WebhookResponse
  | failure : Nat → String → WebhookResponse
deriving DecidableEq, Repr

/-- Outcome of one webhook delivery: the bookings table afterwards, calendar
creation attempts (the source handler performs none — Cal.com creation is
only a TODO comment there), and the HTTP response. -/
structure WebhookOutcome where
  store : List Booking
  attempts : List CalAttempt
  response : WebhookResponse
deriving Repr

/-- `handleStripeWebhook` of `src/server/_core/webhooks.ts` (lines 32-97):
reject with 400 when the signature header is missing, 500 when the secret is
not configured; otherwise run `validateWebhookSignature` — the external
crypto check, modelled by the `verify` parameter applied to the raw body,
signature and secret — a thrown verification error is caught and answered
with 400 before any processing.  A verified event goes through
`processWebhookEvent`; irrelevant events are acknowledged with 200 and no
state change; a confirmation tuple leads to a booking lookup (404 when
absent), a payment-intent attachment when the event carries one and the row
has none, and an unconditional status update to confirmed. -/
def handleStripeWebhook (store : List Booking) (body : String)
    (signature : Option String) (webhookSecret : Option String)
    (verify : String → String → String → Except String StripeEvent) : WebhookOutcome :=
  match signature with
  | none => ⟨store, [], .failure 400 "Missing signature"⟩
  | some sig =>
    match webhookSecret with
    | none => ⟨store, [], .failure 500 "Webhook secret not configured"⟩
    | some secret =>
      match verify body sig secret with
      | .error e => ⟨store, [], .failure 400 e⟩
      | .ok event =>
        match processWebhookEvent event with
        | none => ⟨store, [], .received⟩
        | some (bookingId, sessionId) =>
          match getBooking store bookingId with
          | none => ⟨store, [], .failure 404 "Booking not found"⟩
          | some booking =>
            let store1 :=
              if event.paymentIntent != "" && booking.stripePaymentIntentId == "" then
                updateBookingWithStripeData store bookingId sessionId event.paymentIntent
              else
                store
            ⟨updateBookingStatus store1 bookingId .confirmed, [], .received⟩

/-- Time slot produced by the availability service (`TimeSlot` interface of
`src/server/services/availability.ts`, lines 8-13): an id string, start and
end instants, and an availability boolean.  These are its only fields — the
record carries no provenance marker. -/
structure TimeSlot where
  id : String
  startTime : Int
  endTime : Int
  available : Bool
deriving DecidableEq, Repr

/-- One day in epoch milliseconds. -/
def msPerDay : Int := 86400000

/-- Day of week of a midnight instant, JS `Date.getDay` style (0 = Sunday,
6 = Saturday); the epoch (day 0) was a Thursday (4).  The source uses the
server's local clock; the embedding works in UTC. -/
def dayOfWeek (t : Int) : Int := (t / msPerDay + 4) % 7

/-- Business hours at which `generateTimeSlots` and `getMockAvailability`
place their one-hour candidate slots: 9am, 11am, 1pm, 3pm, 5pm. -/
def businessHours : List Int := [9, 11, 13, 15, 17]

/-- `generateTimeSlots` of `src/server/services/availability.ts` (lines
129-158): one iteration per day from `startDate` (a midnight instant) while
before the end of the window — the caller always passes a window of exactly
`numDays` whole days — skipping Saturday and Sunday, and on each weekday one
slot per business hour, marked available, with the slot's start instant as
its id. -/
def generateTimeSlots (startDate : Int) (numDays : Nat) : List TimeSlot :=
  (List.range numDays).flatMap (fun day =>
    let date := startDate + day * msPerDay
    if dayOfWeek date != 0 && dayOfWeek date != 6 then
      businessHours.map (fun hour =>
        { id := toString (date + hour * msPerHour),
          startTime := date + hour * msPerHour,
          endTime := date + (hour + 1) * msPerHour,
          available := true })
    else
      [])

/-- `isSlotBusy` of `src/server/services/availability.ts` (lines 163-174):
a slot is busy when some busy interval (given as a start-end pair) satisfies
one of the source's three disjuncts — slot start inside the interval, slot
end inside it, or the slot containing it. -/
def isSlotBusy (slot : TimeSlot) (busySlots : List (Int × Int)) : Bool :=
  busySlots.any (fun busy =>
    (slot.startTime ≥ busy.1 && slot.startTime < busy.2) ||
    (slot.endTime > busy.1 && slot.endTime ≤ busy.2) ||
    (slot.startTime ≤ busy.1 && slot.endTime ≥ busy.2))

/-- `getMockAvailability` of `src/server/services/availability.ts` (lines
181-222): the locally generated placeholder slot set — the same 14-day
weekday business-hour grid, ids of the shape practitionerId-day-hour, and
each slot's availability drawn from `Math.random()` (the `rand` parameter of
the embedding). -/
def getMockAvailability (practitionerId : Nat) (startDate : Int)
    (rand : Nat → Int → Bool) : List TimeSlot :=
  (List.range 14).flatMap (fun day =>
    let date := startDate + day * msPerDay
    if dayOfWeek date == 0 || dayOfWeek date == 6 then
      []
    else
      businessHours.map (fun hour =>
        { id := toString practitionerId ++ "-" ++ toString day ++ "-" ++ toString hour,
          startTime := date + hour * msPerHour,
          endTime := date + (hour + 1) * msPerHour,
          available := rand day hour }))

/-- Error with which the catch block of `getCalComAvailability` itself
blows up: its error-details logging (availability.ts lines 112-118) reads
the consts `calComUserId`, `eventTypeId` and `requestUrl`, all declared
inside the `try` block and hence out of scope in the catch, so evaluating
that object literal throws before the fallback return below it runs
(`calComUserId` is the first such identifier evaluated). -/
def catchBlockReferenceError : String :=
  "ReferenceError: calComUserId is not defined"

/-- `getCalComAvailability` of `src/server/services/availability.ts` (lines
26-124), the body of `listAvailability`: return the mock slot set when the
API key or the per-practitioner Cal.com configuration is missing; on a
successful provider fetch (`fetched` is the outcome of the axios call for
busy intervals over the 14-day window starting at `startDate`), generate
the candidate grid and mark each slot unavailable when it overlaps a busy
interval.  When the fetch fails, control enters the catch block (lines
110-123), whose second logging statement references the try-scoped consts
`calComUserId`, `eventTypeId` and `requestUrl`; that reference throws a
ReferenceError, so the `return getMockAvailability(...)` at the end of the
catch is unreachable and the provider error makes the whole call raise
(`src/unnamed/part_008` later fixes exactly this by declaring those
variables outside the try).  The result is therefore `Except`: `.error` on
the raising path, `.ok` with a bare, tag-free slot list otherwise. -/
def getCalComAvailability (apiKey calComUserId eventTypeId : Option String)
    (fetched : Except String (List (Int × Int))) (startDate : Int)
    (practitionerId : Nat) (rand : Nat → Int → Bool) : Except String (List TimeSlot) :=
  match apiKey with
  | none => .ok (getMockAvailability practitionerId startDate rand)
  | some _ =>
    match calComUserId, eventTypeId with
    | some _, some _ =>
      match fetched with
      | .error _ => .error catchBlockReferenceError
      | .ok busySlots =>
        .ok ((generateTimeSlots startDate 14).map (fun slot =>
          { slot with available := !isSlotBusy slot busySlots }))
    | _, _ => .ok (getMockAvailability practitionerId startDate rand)

/-- Provenance-free content of a time slot: every field except the id
string.  Used to compare fallback output with real-provider output. -/
def slotData (s : TimeSlot) : Int × Int × Bool := (s.startTime, s.endTime, s.available)

/-- Every row of an `updateBookingStatus` result that carries the updated id
has the written status. -/
theorem updateBookingStatus_status {store : List Booking} {bid : Nat}
    {st : BookingStatus} {b2 : Booking}
    (hmem : b2 ∈ updateBookingStatus store bid st) (hid : b2.id = bid) :
    b2.status = st := by
  unfold updateBookingStatus at hmem
  rcases List.mem_map.mp hmem with ⟨a, -, ha⟩
  by_cases h : a.id = bid
  · simp only [h, if_true, beq_self_eq_true] at ha
    rw [← ha]
  · simp only [beq_iff_eq, h, if_false] at ha
    rw [← ha] at hid
    exact absurd hid h

/-- C2, counterexample: the only booking at (practitioner 1, instant 1000)
is cancelled, yet `checkBookingConflict` returns it and a fresh
`createBooking` for the same slot fails with the slot-taken error — the
conflict check does not exclude cancelled bookings. -/
theorem conflict_check_counts_cancelled_cex :
    checkBookingConflict
        [⟨1, 1, "Ana", "ana@example.com", "+441111", 1000, .cancelled, "", "", 8000⟩] 1 1000 =
      some ⟨1, 1, "Ana", "ana@example.com", "+441111", 1000, .cancelled, "", "", 8000⟩ ∧
    (createBookingOp
        [⟨1, "Dr. Sarah Johnson", "sarah@example.com", "Clinical Psychologist", 8000⟩]
        [⟨1, 1, "Ana", "ana@example.com", "+441111", 1000, .cancelled, "", "", 8000⟩]
        ⟨1, "Bob", "bob@example.com", "+442222", 1000⟩
        (.ok ⟨"cs_2", "https://checkout.example/cs_2"⟩) 2).result =
      .error slotTakenMsg :=
  ⟨rfl, rfl⟩

/-- C2, amended: `checkBookingConflict` returns a booking exactly when some
booking — of any status, cancelled included — exists at that practitioner
and start instant; the source query has no status condition, so a cancelled
booking at the slot still makes `createBooking` fail with `SlotTaken`. -/
theorem conflict_check_ignores_status (store : List Booking) (pid : Nat) (t : Int) :
    (checkBookingConflict store pid t).isSome = true ↔
      ∃ b ∈ store, b.practitionerId = pid ∧ b.bookingTime = t := by
  unfold checkBookingConflict
  rw [List.find?_isSome]
  simp only [Bool.and_eq_true, beq_iff_eq]

/-- C5, counterexample: `cancelBooking` applied to a booking whose status is
confirmed sets its status to cancelled and answers with status "cancelled" —
there is a `confirmed → cancelled` transition in the core. -/
theorem cancel_confirmed_booking_cex :
    (cancelBookingOp
        [⟨1, 1, "Ana", "ana@example.com", "+441111", 1000, .confirmed, "cs_1", "pi_1", 8000⟩]
        1).store =
      [⟨1, 1, "Ana", "ana@example.com", "+441111", 1000, .cancelled, "cs_1", "pi_1", 8000⟩] ∧
    (cancelBookingOp
        [⟨1, 1, "Ana", "ana@example.com", "+441111", 1000, .confirmed, "cs_1", "pi_1", 8000⟩]
        1).result = .ok ⟨1, "cancelled"⟩ :=
  ⟨rfl, rfl⟩

/-- C5, amended: `cancelBooking` checks nothing about the current status —
whenever the booking is found (confirmed ones included) it sets the status
to cancelled and returns `\x7bbookingId, status: "cancelled"\x7d`, so
`confirmed` is not a terminal state under the cancel operation. -/
theorem cancel_sets_cancelled_unconditionally
    (store : List Booking) (bid : Nat) (b : Booking)
    (hfind : getBooking store bid = some b) :
    (cancelBookingOp store bid).result = .ok ⟨b.id, "cancelled"⟩ ∧
    ∀ b2 ∈ (cancelBookingOp store bid).store, b2.id = b.id → b2.status = .cancelled := by
  unfold cancelBookingOp
  rw [hfind]
  exact ⟨rfl, fun b2 hmem hid => updateBookingStatus_status hmem hid⟩

/-- C5 witness: a concrete confirmed booking is cancelled by `cancelBooking`. -/
theorem cancel_sets_cancelled_unconditionally_witness :
    getBooking [⟨7, 2, "Joe", "joe@example.com", "+443333", 5000, .confirmed, "cs_7", "pi_7", 7500⟩] 7 =
      some ⟨7, 2, "Joe", "joe@example.com", "+443333", 5000, .confirmed, "cs_7", "pi_7", 7500⟩ ∧
    ((cancelBookingOp
        [⟨7, 2, "Joe", "joe@example.com", "+443333", 5000, .confirmed, "cs_7", "pi_7", 7500⟩] 7).result =
      .ok ⟨7, "cancelled"⟩ ∧
    ∀ b2 ∈ (cancelBookingOp
        [⟨7, 2, "Joe", "joe@example.com", "+443333", 5000, .confirmed, "cs_7", "pi_7", 7500⟩] 7).store,
      b2.id = 7 → b2.status = .cancelled) :=
  ⟨rfl, cancel_sets_cancelled_unconditionally
    [⟨7, 2, "Joe", "joe@example.com", "+443333", 5000, .confirmed, "cs_7", "pi_7", 7500⟩] 7
    ⟨7, 2, "Joe", "joe@example.com", "+443333", 5000, .confirmed, "cs_7", "pi_7", 7500⟩ rfl⟩

/-- C6: when the practitioner exists, the conflict check passes and the
Stripe checkout-session creation then fails, `createBooking` propagates the
checkout error to the caller, and the bookings table afterwards still holds
the freshly inserted row — status pending, no checkout session reference,
no payment reference — exactly the prior table plus that one row (nothing
is deleted or rolled back). -/
theorem create_booking_checkout_failure_visible_nonatomic
    (ps : List Practitioner) (store : List Booking) (inp : CreateBookingInput)
    (p : Practitioner) (e : String) (newId : Nat)
    (hp : getPractitioner ps inp.practitionerId = some p)
    (hnoconf : checkBookingConflict store inp.practitionerId inp.bookingTime = none) :
    createBookingOp ps store inp (.error e) newId =
      ⟨store ++ [⟨newId, inp.practitionerId, inp.clientName, inp.clientEmail,
        inp.clientPhone, inp.bookingTime, .pending, "", "", p.hourlyRate⟩],
       .error e⟩ := by
  unfold createBookingOp
  rw [hp, hnoconf]

/-- C6 witness: a concrete run with an empty table, practitioner 1 and a
failing checkout leaves one pending, reference-free row and surfaces the
error. -/
theorem create_booking_checkout_failure_visible_nonatomic_witness :
    getPractitioner [⟨1, "Dr. Sarah Johnson", "sarah@example.com", "Clinical Psychologist", 8000⟩] 1 =
      some ⟨1, "Dr. Sarah Johnson", "sarah@example.com", "Clinical Psychologist", 8000⟩ ∧
    checkBookingConflict [] 1 1000 = none ∧
    createBookingOp
        [⟨1, "Dr. Sarah Johnson", "sarah@example.com", "Clinical Psychologist", 8000⟩] []
        ⟨1, "Ana", "ana@example.com", "+441111", 1000⟩
        (.error "STRIPE_SECRET_KEY is not set in environment variables") 1 =
      ⟨[⟨1, 1, "Ana", "ana@example.com", "+441111", 1000, .pending, "", "", 8000⟩],
       .error "STRIPE_SECRET_KEY is not set in environment variables"⟩ :=
  ⟨rfl, rfl,
    create_booking_checkout_failure_visible_nonatomic
      [⟨1, "Dr. Sarah Johnson", "sarah@example.com", "Clinical Psychologist", 8000⟩] []
      ⟨1, "Ana", "ana@example.com", "+441111", 1000⟩
      ⟨1, "Dr. Sarah Johnson", "sarah@example.com", "Clinical Psychologist", 8000⟩
      "STRIPE_SECRET_KEY is not set in environment variables" 1 rfl rfl⟩

/-- C10: conflict detection is exact start-instant equality only — when
every booking of the practitioner sits at instant `t` and the requested
instant differs from `t`, the conflict check finds nothing and
`createBooking` succeeds (returning the checkout url and the practitioner's
rate) rather than failing with the slot-taken error, regardless of whether
the one-hour sessions overlap in time. -/
theorem conflict_exact_instant_only
    (ps : List Practitioner) (store : List Booking) (inp : CreateBookingInput)
    (p : Practitioner) (t : Int) (cs : CheckoutSession) (newId : Nat)
    (hdiff : t ≠ inp.bookingTime)
    (hstore : ∀ b ∈ store, b.practitionerId = inp.practitionerId → b.bookingTime = t)
    (hp : getPractitioner ps inp.practitionerId = some p) :
    checkBookingConflict store inp.practitionerId inp.bookingTime = none ∧
    (createBookingOp ps store inp (.ok cs) newId).result =
      .ok ⟨newId, cs.url, p.hourlyRate⟩ := by
  have hnone : checkBookingConflict store inp.practitionerId inp.bookingTime = none := by
    unfold checkBookingConflict
    rw [List.find?_eq_none]
    intro b hb
    simp only [Bool.and_eq_true, beq_iff_eq, not_and]
    intro hpid ht
    exact hdiff ((hstore b hb hpid ▸ ht).symm ▸ rfl)
  refine ⟨hnone, ?_⟩
  unfold createBookingOp
  rw [hp, hnone]

/-- C10 witness: a booking at 09:00 (instant 32400000) does not block a
booking of the same practitioner at 09:30 (instant 34200000), although the
two one-hour sessions overlap. -/
theorem conflict_exact_instant_only_witness :
    ((32400000 : Int) ≠ (34200000 : Int)) ∧
    (∀ b ∈ [(⟨1, 1, "Ana", "ana@example.com", "+441111", 32400000, .pending, "", "", 8000⟩ : Booking)],
      b.practitionerId = 1 → b.bookingTime = 32400000) ∧
    (checkBookingConflict
        [⟨1, 1, "Ana", "ana@example.com", "+441111", 32400000, .pending, "", "", 8000⟩] 1 34200000 =
      none ∧
    (createBookingOp
        [⟨1, "Dr. Sarah Johnson", "sarah@example.com", "Clinical Psychologist", 8000⟩]
        [⟨1, 1, "Ana", "ana@example.com", "+441111", 32400000, .pending, "", "", 8000⟩]
        ⟨1, "Bob", "bob@example.com", "+442222", 34200000⟩
        (.ok ⟨"cs_2", "https://checkout.example/cs_2"⟩) 2).result =
      .ok ⟨2, "https://checkout.example/cs_2", 8000⟩) :=
  ⟨by decide, by decide,
    conflict_exact_instant_only
      [⟨1, "Dr. Sarah Johnson", "sarah@example.com", "Clinical Psychologist", 8000⟩]
      [⟨1, 1, "Ana", "ana@example.com", "+441111", 32400000, .pending, "", "", 8000⟩]
      ⟨1, "Bob", "bob@example.com", "+442222", 34200000⟩
      ⟨1, "Dr. Sarah Johnson", "sarah@example.com", "Clinical Psychologist", 8000⟩
      32400000 ⟨"cs_2", "https://checkout.example/cs_2"⟩ 2
      (by decide) (by decide) rfl⟩

/-- C1, counterexample: with practitioner 1 present and a booking that is
already confirmed under checkout session "cs_1", a second `confirmBooking`
call with the same session reference leaves the table unchanged and answers
success — but it attempts one more Cal.com event creation, a distinct
observable side effect, so the second call is not free of a second
calendar-event creation attempt. -/
theorem confirm_second_call_reattempts_calendar_cex :
    (let ps : List Practitioner :=
      [⟨1, "Dr. Sarah Johnson", "sarah@example.com", "Clinical Psychologist", 8000⟩]
     let b0 : Booking :=
      ⟨1, 1, "Ana", "ana@example.com", "+441111", 1000, .confirmed, "cs_1", "pi_1", 8000⟩
     let r1 := confirmBookingOp ps [b0] "cs_1"
     let r2 := confirmBookingOp ps r1.store "cs_1"
     r2.result = .ok ⟨1, "confirmed"⟩ ∧ r2.store = r1.store ∧ r2.attempts.length = 1) :=
  ⟨rfl, rfl, rfl⟩

/-- C1, amended: re-confirming an already confirmed booking is idempotent on
state and does not error — the booking stays confirmed and the call returns
the success object — but the tRPC confirm path attempts a calendar-event
creation on every invocation, repeats included, whenever the practitioner is
found (the webhook handler itself, by contrast, never creates calendar
events at all — see `handleStripeWebhook`, whose attempts list is empty in
every branch). -/
theorem confirm_idempotent_state_but_reattempts_calendar
    (ps : List Practitioner) (store : List Booking) (sid : String)
    (b : Booking) (p : Practitioner)
    (hfind : getBookingByStripeSessionId store sid = some b)
    (_hconf : b.status = .confirmed)
    (hp : getPractitioner ps b.practitionerId = some p) :
    (confirmBookingOp ps store sid).result = .ok ⟨b.id, "confirmed"⟩ ∧
    (∀ b2 ∈ (confirmBookingOp ps store sid).store, b2.id = b.id → b2.status = .confirmed) ∧
    (confirmBookingOp ps store sid).attempts.length = 1 := by
  unfold confirmBookingOp
  simp only [hfind, hp]
  exact ⟨by trivial, fun b2 hmem hid => updateBookingStatus_status hmem hid, by trivial⟩

/-- C1 witness: the amended statement instantiated at the confirmed booking
of the counterexample. -/
theorem confirm_idempotent_state_but_reattempts_calendar_witness :
    getBookingByStripeSessionId
        [⟨1, 1, "Ana", "ana@example.com", "+441111", 1000, .confirmed, "cs_1", "pi_1", 8000⟩]
        "cs_1" =
      some ⟨1, 1, "Ana", "ana@example.com", "+441111", 1000, .confirmed, "cs_1", "pi_1", 8000⟩ ∧
    (⟨1, 1, "Ana", "ana@example.com", "+441111", 1000, .confirmed, "cs_1", "pi_1", 8000⟩ :
      Booking).status = .confirmed ∧
    ((confirmBookingOp
        [⟨1, "Dr. Sarah Johnson", "sarah@example.com", "Clinical Psychologist", 8000⟩]
        [⟨1, 1, "Ana", "ana@example.com", "+441111", 1000, .confirmed, "cs_1", "pi_1", 8000⟩]
        "cs_1").result = .ok ⟨1, "confirmed"⟩ ∧
    (∀ b2 ∈ (confirmBookingOp
        [⟨1, "Dr. Sarah Johnson", "sarah@example.com", "Clinical Psychologist", 8000⟩]
        [⟨1, 1, "Ana", "ana@example.com", "+441111", 1000, .confirmed, "cs_1", "pi_1", 8000⟩]
        "cs_1").store, b2.id = 1 → b2.status = .confirmed) ∧
    (confirmBookingOp
        [⟨1, "Dr. Sarah Johnson", "sarah@example.com", "Clinical Psychologist", 8000⟩]
        [⟨1, 1, "Ana", "ana@example.com", "+441111", 1000, .confirmed, "cs_1", "pi_1", 8000⟩]
        "cs_1").attempts.length = 1) :=
  ⟨rfl, rfl,
    confirm_idempotent_state_but_reattempts_calendar
      [⟨1, "Dr. Sarah Johnson", "sarah@example.com", "Clinical Psychologist", 8000⟩]
      [⟨1, 1, "Ana", "ana@example.com", "+441111", 1000, .confirmed, "cs_1", "pi_1", 8000⟩]
      "cs_1"
      ⟨1, 1, "Ana", "ana@example.com", "+441111", 1000, .confirmed, "cs_1", "pi_1", 8000⟩
      ⟨1, "Dr. Sarah Johnson", "sarah@example.com", "Clinical Psychologist", 8000⟩
      rfl rfl rfl⟩

/-- C4: `bookings.confirmBooking` takes only a checkout session id string —
its embedding `confirmBookingOp` has no signature, payload or payment-status
input at all — and whenever the lookup by that string finds a booking whose
practitioner exists, it sets the booking's status to confirmed, attempts a
Cal.com calendar-event creation, and returns
`\x7bbookingId, status: "confirmed"\x7d`, with no hypothesis on the
booking's current status or on any payment having occurred. -/
theorem trpc_confirm_unverified_confirms
    (ps : List Practitioner) (store : List Booking) (sid : String)
    (b : Booking) (p : Practitioner)
    (hfind : getBookingByStripeSessionId store sid = some b)
    (hp : getPractitioner ps b.practitionerId = some p) :
    (confirmBookingOp ps store sid).result = .ok ⟨b.id, "confirmed"⟩ ∧
    (confirmBookingOp ps store sid).store = updateBookingStatus store b.id .confirmed ∧
    (∀ b2 ∈ (confirmBookingOp ps store sid).store, b2.id = b.id → b2.status = .confirmed) ∧
    (confirmBookingOp ps store sid).attempts ≠ [] := by
  unfold confirmBookingOp
  simp only [hfind, hp]
  exact ⟨by trivial, by trivial, fun b2 hmem hid => updateBookingStatus_status hmem hid, by simp⟩

/-- C4 witness: a pending booking with no payment reference at all is
confirmed, and a calendar creation attempted, by supplying nothing but its
stored checkout session id. -/
theorem trpc_confirm_unverified_confirms_witness :
    getBookingByStripeSessionId
        [⟨3, 1, "Eve", "eve@example.com", "+445555", 2000, .pending, "cs_3", "", 8000⟩] "cs_3" =
      some ⟨3, 1, "Eve", "eve@example.com", "+445555", 2000, .pending, "cs_3", "", 8000⟩ ∧
    ((confirmBookingOp
        [⟨1, "Dr. Sarah Johnson", "sarah@example.com", "Clinical Psychologist", 8000⟩]
        [⟨3, 1, "Eve", "eve@example.com", "+445555", 2000, .pending, "cs_3", "", 8000⟩]
        "cs_3").result = .ok ⟨3, "confirmed"⟩ ∧
    (confirmBookingOp
        [⟨1, "Dr. Sarah Johnson", "sarah@example.com", "Clinical Psychologist", 8000⟩]
        [⟨3, 1, "Eve", "eve@example.com", "+445555", 2000, .pending, "cs_3", "", 8000⟩]
        "cs_3").store =
      updateBookingStatus
        [⟨3, 1, "Eve", "eve@example.com", "+445555", 2000, .pending, "cs_3", "", 8000⟩] 3 .confirmed ∧
    (∀ b2 ∈ (confirmBookingOp
        [⟨1, "Dr. Sarah Johnson", "sarah@example.com", "Clinical Psychologist", 8000⟩]
        [⟨3, 1, "Eve", "eve@example.com", "+445555", 2000, .pending, "cs_3", "", 8000⟩]
        "cs_3").store, b2.id = 3 → b2.status = .confirmed) ∧
    (confirmBookingOp
        [⟨1, "Dr. Sarah Johnson", "sarah@example.com", "Clinical Psychologist", 8000⟩]
        [⟨3, 1, "Eve", "eve@example.com", "+445555", 2000, .pending, "cs_3", "", 8000⟩]
        "cs_3").attempts ≠ []) :=
  ⟨rfl,
    trpc_confirm_unverified_confirms
      [⟨1, "Dr. Sarah Johnson", "sarah@example.com", "Clinical Psychologist", 8000⟩]
      [⟨3, 1, "Eve", "eve@example.com", "+445555", 2000, .pending, "cs_3", "", 8000⟩]
      "cs_3"
      ⟨3, 1, "Eve", "eve@example.com", "+445555", 2000, .pending, "cs_3", "", 8000⟩
      ⟨1, "Dr. Sarah Johnson", "sarah@example.com", "Clinical Psychologist", 8000⟩
      rfl rfl⟩

/-- C3: when a signature header and a configured secret are present but the
payload/signature pair does not verify (the verification call throws), the
webhook handler answers 400 with the thrown message, the bookings table is
returned untouched — no status update, no payment-reference attachment —
and no calendar-event creation is attempted. -/
theorem webhook_signature_failure_fail_closed
    (store : List Booking) (body sig secret : String)
    (verify : String → String → String → Except String StripeEvent) (e : String)
    (hverify : verify body sig secret = .error e) :
    handleStripeWebhook store body (some sig) (some secret) verify =
      ⟨store, [], .failure 400 e⟩ := by
  unfold handleStripeWebhook
  simp only [hverify]

/-- C3 witness: a concrete delivery whose signature verification fails is
rejected with 400 and changes nothing. -/
theorem webhook_signature_failure_fail_closed_witness :
    (fun (_ _ _ : String) =>
      (Except.error "Webhook signature verification failed: bad signature" :
        Except String StripeEvent)) "rawbody" "t=1,v1=deadbeef" "whsec_test" =
      .error "Webhook signature verification failed: bad signature" ∧
    handleStripeWebhook
        [⟨1, 1, "Ana", "ana@example.com", "+441111", 1000, .pending, "cs_1", "", 8000⟩]
        "rawbody" (some "t=1,v1=deadbeef") (some "whsec_test")
        (fun _ _ _ => .error "Webhook signature verification failed: bad signature") =
      ⟨[⟨1, 1, "Ana", "ana@example.com", "+441111", 1000, .pending, "cs_1", "", 8000⟩], [],
       .failure 400 "Webhook signature verification failed: bad signature"⟩ :=
  ⟨rfl,
    webhook_signature_failure_fail_closed
      [⟨1, 1, "Ana", "ana@example.com", "+441111", 1000, .pending, "cs_1", "", 8000⟩]
      "rawbody" "t=1,v1=deadbeef" "whsec_test"
      (fun _ _ _ => .error "Webhook signature verification failed: bad signature")
      "Webhook signature verification failed: bad signature" rfl⟩

/-- C7: a verified event whose type is not checkout.session.completed, or
whose payment status is not paid, or which carries no bookingId metadata,
makes `processWebhookEvent` return none, and the webhook handler then
acknowledges with the 200 `\x7breceived: true\x7d` response, leaving the
bookings table untouched and attempting no calendar-event creation. -/
theorem irrelevant_webhook_events_benign
    (store : List Booking) (body sig secret : String)
    (verify : String → String → String → Except String StripeEvent) (ev : StripeEvent)
    (hverify : verify body sig secret = .ok ev)
    (hirr : ev.evType ≠ "checkout.session.completed" ∨ ev.paymentStatus ≠ "paid" ∨
      ev.metadataBookingId = none) :
    processWebhookEvent ev = none ∧
    handleStripeWebhook store body (some sig) (some secret) verify =
      ⟨store, [], .received⟩ := by
  have hnone : processWebhookEvent ev = none := by
    unfold processWebhookEvent
    by_cases h1 : ev.evType = "checkout.session.completed"
    · rcases hm : ev.metadataBookingId with _ | bid
      · simp [h1, hm]
      · rcases hirr with h | h | h
        · exact absurd h1 h
        · simp [h1, hm, h]
        · rw [hm] at h
          exact absurd h (by simp)
    · simp [h1]
  refine ⟨hnone, ?_⟩
  unfold handleStripeWebhook
  simp only [hverify, hnone]

/-- C7 witness: a verified `charge.succeeded` event is ignored: none is
extracted, the table is unchanged and the handler answers 200. -/
theorem irrelevant_webhook_events_benign_witness :
    (fun (_ _ _ : String) =>
      (Except.ok (⟨"charge.succeeded", "paid", "cs_1", "pi_1", some 1⟩ : StripeEvent) :
        Except String StripeEvent)) "rawbody" "t=1,v1=ok" "whsec_test" =
      .ok ⟨"charge.succeeded", "paid", "cs_1", "pi_1", some 1⟩ ∧
    ((⟨"charge.succeeded", "paid", "cs_1", "pi_1", some 1⟩ : StripeEvent).evType ≠
      "checkout.session.completed" ∨
     (⟨"charge.succeeded", "paid", "cs_1", "pi_1", some 1⟩ : StripeEvent).paymentStatus ≠ "paid" ∨
     (⟨"charge.succeeded", "paid", "cs_1", "pi_1", some 1⟩ : StripeEvent).metadataBookingId = none) ∧
    (processWebhookEvent ⟨"charge.succeeded", "paid", "cs_1", "pi_1", some 1⟩ = none ∧
    handleStripeWebhook
        [⟨1, 1, "Ana", "ana@example.com", "+441111", 1000, .pending, "cs_1", "", 8000⟩]
        "rawbody" (some "t=1,v1=ok") (some "whsec_test")
        (fun _ _ _ => .ok ⟨"charge.succeeded", "paid", "cs_1", "pi_1", some 1⟩) =
      ⟨[⟨1, 1, "Ana", "ana@example.com", "+441111", 1000, .pending, "cs_1", "", 8000⟩], [],
       .received⟩) :=
  ⟨rfl, by decide,
    irrelevant_webhook_events_benign
      [⟨1, 1, "Ana", "ana@example.com", "+441111", 1000, .pending, "cs_1", "", 8000⟩]
      "rawbody" "t=1,v1=ok" "whsec_test"
      (fun _ _ _ => .ok ⟨"charge.succeeded", "paid", "cs_1", "pi_1", some 1⟩)
      ⟨"charge.succeeded", "paid", "cs_1", "pi_1", some 1⟩
      rfl (by decide)⟩

/-- C8: against a single busy interval, the three-disjunct test of
`isSlotBusy` marks a nonempty candidate slot [s1,e1) busy for a nonempty
busy interval [s2,e2) exactly when s1 < e2 and s2 < e1 — the half-open
overlap rule; touching endpoints (e1 = s2 or e2 = s1) falsify the right-hand
side and are therefore not counted as overlapping. -/
theorem slot_busy_iff_halfopen_overlap (s1 e1 s2 e2 : Int)
    (h1 : s1 < e1) (h2 : s2 < e2) :
    (isSlotBusy ⟨toString s1, s1, e1, true⟩ [(s2, e2)] = true) ↔ (s1 < e2 ∧ s2 < e1) := by
  simp only [isSlotBusy, List.any_cons, List.any_nil, Bool.or_false, Bool.or_eq_true,
    Bool.and_eq_true, decide_eq_true_eq]
  omega

/-- C8 witness: the slot [0,60) touches the busy interval [60,120) only at
the endpoint and is not busy, in accordance with the half-open rule. -/
theorem slot_busy_iff_halfopen_overlap_witness :
    ((0 : Int) < 60 ∧ (60 : Int) < 120) ∧
    ((isSlotBusy ⟨toString (0 : Int), 0, 60, true⟩ [((60 : Int), (120 : Int))] = true) ↔
      ((0 : Int) < 120 ∧ (60 : Int) < 60)) :=
  ⟨⟨by decide, by decide⟩,
    slot_busy_iff_halfopen_overlap 0 60 60 120 (by decide) (by decide)⟩

/-- C9, counterexample: with the API key and the Cal.com configuration
present and the provider fetch failing (a timeout), the availability query
does not return a locally generated placeholder slot set — it raises: the
catch block's error-details logging reads the try-scoped `calComUserId` and
throws a ReferenceError before the fallback return under it can run.  And
the placeholder set that IS returned when the API key is missing carries no
boolean or source tag: modulo the incidental id string it agrees with real
provider data on every field (start, end, availability) of every slot. -/
theorem availability_provider_error_raises_cex :
    getCalComAvailability (some "cal_live_key") (some "1001") (some "4071936")
        (.error "timeout of 5000ms exceeded") 0 1 (fun _ _ => true) =
      .error catchBlockReferenceError ∧
    getCalComAvailability none none none (.ok []) 0 1 (fun _ _ => true) =
      .ok (getMockAvailability 1 0 (fun _ _ => true)) ∧
    (getCalComAvailability (some "cal_live_key") (some "1001") (some "4071936")
        (.ok []) 0 1 (fun _ _ => true)).toOption.map (fun l => l.map slotData) =
      some ((getMockAvailability 1 0 (fun _ _ => true)).map slotData) :=
  ⟨rfl, rfl, by decide⟩

/-- C9, amended: on a provider error during the availability query (the
fetch outcome being an error of any message — timeout, non-2xx or malformed
response alike), `getCalComAvailability` raises rather than degrading,
because the catch block itself throws a ReferenceError over its try-scoped
variables before reaching its fallback return; the locally generated mock
placeholder slot set is returned exactly when the API key or the
per-practitioner Cal.com configuration is missing, and even then it is a
bare `TimeSlot` list with no boolean or source tag distinguishing it from
real provider data (only the incidental id string format differs, per the
counterexample). -/
theorem availability_raises_on_provider_error (k u et err : String)
    (fetched : Except String (List (Int × Int))) (startDate : Int)
    (pid : Nat) (rand : Nat → Int → Bool) :
    getCalComAvailability (some k) (some u) (some et) (.error err) startDate pid rand =
      .error catchBlockReferenceError ∧
    getCalComAvailability none (some u) (some et) fetched startDate pid rand =
      .ok (getMockAvailability pid startDate rand) ∧
    getCalComAvailability (some k) none (some et) fetched startDate pid rand =
      .ok (getMockAvailability pid startDate rand) ∧
    getCalComAvailability (some k) (some u) none fetched startDate pid rand =
      .ok (getMockAvailability pid startDate rand) :=
  ⟨rfl, rfl, rfl, rfl⟩
